import Mathlib

/-!
Shallow embedding of `src/main.cpp` (Net & Serial Monitor, C++/FLTK).

The program keeps a shared `AppState` with two atomic tri-state probe cells
(`network`, `serial`) and an atomic `running` flag.  Two worker threads
periodically run a shell script each and store the outcome into their cell;
the UI renders a status line and a panel of three colored circles from the
cells.  The embedding below translates each C++ function into a Lean
definition; machine `int` values are modelled as `Int`, C++ integer division
(truncation toward zero) as `Int.tdiv`, and the effect of the worker loops on
the shared state as explicit state passing with an event trace.
-/

/-- `enum class ProbeState : int { Unknown = -1, Fail = 0, Ok = 1 }` -/
inductive ProbeState
  | Unknown
  | Fail
  | Ok
deriving DecidableEq

/-- The underlying `int` value of the C++ enumerator. -/
def ProbeState.toInt : ProbeState → Int
  | .Unknown => -1
  | .Fail => 0
  | .Ok => 1

/-- `struct AppState` — the shared state: two probe cells and the running flag
(`std::atomic` cells are modelled as plain fields; every load/store of the
C++ code appears explicitly in the traces below). -/
structure AppState where
  network : ProbeState
  serial : ProbeState
  running : Bool
deriving DecidableEq

/-- Initial `AppState` as constructed in `main`: both probes Unknown,
running set. -/
def initState : AppState :=
  { network := ProbeState.Unknown, serial := ProbeState.Unknown, running := true }

/-- FLTK colors used by the program, kept symbolic: the named palette colors
plus `fl_rgb_color` triples. -/
inductive Color
  | green
  | red
  | dark3
  | black
  | rgb (r g b : Nat)
deriving DecidableEq

def FL_GREEN : Color := Color.green

def FL_RED : Color := Color.red

def FL_DARK3 : Color := Color.dark3

def FL_BLACK : Color := Color.black

def fl_rgb_color (r g b : Nat) : Color := Color.rgb r g b

/-- `StatusPanel::color_for` — switch on the probe state; the `Unknown` and
`default` branches of the C++ switch coincide. -/
def color_for (st : ProbeState) : Color :=
  match st with
  | ProbeState.Ok => FL_GREEN
  | ProbeState.Fail => FL_RED
  | ProbeState.Unknown => fl_rgb_color 128 128 128

/-- The segments produced by the `std::getline(ss, dir, ':')` loop of
`resolve_path` on the PATH string: splitting on colons, except that a
trailing delimiter yields no final empty segment (the stream is at EOF and
the last `getline` fails), and an empty string yields no segment at all. -/
def getline_split (s : String) : List String :=
  if s = "" then []
  else if s.endsWith ":" then (s.splitOn ":").dropLast
  else s.splitOn ":"

/-- The PATH scanning loop of `resolve_path`: empty segments are skipped,
otherwise `dir + "/" + script` is probed with `access(..., X_OK)`, modelled
by the oracle `exec_ok`; the first hit is returned. -/
def path_loop (exec_ok : String → Bool) (script : String) : List String → Option String
  | [] => none
  | dir :: rest =>
    if dir = "" then path_loop exec_ok script rest
    else
      let candidate := dir ++ "/" ++ script
      if exec_ok candidate then some candidate
      else path_loop exec_ok script rest

/-- The fixed fallback directory list of `resolve_path`
(`{ "/usr/local/bin", "/usr/bin", nullptr }`). -/
def fallbacks : List String := ["/usr/local/bin", "/usr/bin"]

/-- The fallback scanning loop of `resolve_path` (no empty-skip: the list is
fixed). -/
def fallback_loop (exec_ok : String → Bool) (script : String) : List String → Option String
  | [] => none
  | dir :: rest =>
    let candidate := dir ++ "/" ++ script
    if exec_ok candidate then some candidate
    else fallback_loop exec_ok script rest

/-- `resolve_path` restricted to an explicit list of PATH segments (the body
after the `getenv`/`getline` splitting): scan the segments, then the
fallbacks, and return `""` when nothing matches. -/
def resolve_dirs (exec_ok : String → Bool) (script : String) (dirs : List String) : String :=
  match path_loop exec_ok script dirs with
  | some c => c
  | none =>
    match fallback_loop exec_ok script fallbacks with
    | some c => c
    | none => ""

/-- `resolve_path(script)` — `path_env` is the result of `getenv("PATH")`
(`none` models a null pointer), `exec_ok` the `access(..., X_OK) == 0`
oracle. -/
def resolve_path (exec_ok : String → Bool) (path_env : Option String) (script : String) : String :=
  match path_env with
  | some p => resolve_dirs exec_ok script (getline_split p)
  | none => resolve_dirs exec_ok script []

/-- The ordered list of directories `resolve_path` effectively probes for a
given PATH string: the non-empty PATH segments in order, then the
fallbacks. -/
def candidate_dirs (p : String) : List String :=
  (getline_split p).filter (fun d => d ≠ "") ++ fallbacks

/-- `run_command_success(cmd)` — `rc` is the value returned by
`std::system` (`-1` when launching the shell fails, otherwise the wait
status); `rc == 0` maps to Ok, everything else to Fail. -/
def run_command_success (rc : Int) : ProbeState :=
  if rc = 0 then ProbeState.Ok else ProbeState.Fail

/-- The `to_str` lambda inside `make_status_line` (`Unknown` and `default`
branches coincide). -/
def to_str (st : ProbeState) : String :=
  match st with
  | ProbeState.Ok => "OK"
  | ProbeState.Fail => "down"
  | ProbeState.Unknown => "unknown"

/-- Atomic accesses performed on `AppState` fields, with the value moved. -/
inductive Access
  | load_network (v : ProbeState)
  | load_serial (v : ProbeState)
  | load_running (v : Bool)
  | store_network (v : ProbeState)
  | store_serial (v : ProbeState)
  | store_running (v : Bool)
deriving DecidableEq

/-- Whether an access is a store. -/
def Access.is_store : Access → Bool
  | .store_network _ => true
  | .store_serial _ => true
  | .store_running _ => true
  | _ => false

/-- Effect of one access on the shared state (loads leave it unchanged). -/
def apply_access (s : AppState) : Access → AppState
  | .load_network _ => s
  | .load_serial _ => s
  | .load_running _ => s
  | .store_network v => { s with network := v }
  | .store_serial v => { s with serial := v }
  | .store_running v => { s with running := v }

/-- `make_status_line` with its access trace: loads `network` then `serial`
and formats `"network=%s, serial=%s"` into a 128-byte buffer with
`snprintf` (which emits at most 127 characters). -/
def make_status_line_tr (s : AppState) : String × List Access :=
  let p := s.network
  let q := s.serial
  (("network=" ++ to_str p ++ ", serial=" ++ to_str q).take 127,
   [Access.load_network p, Access.load_serial q])

/-- The status line string itself. -/
def make_status_line (s : AppState) : String := (make_status_line_tr s).1

/-- Drawing primitives emitted by `StatusPanel::draw` (FLTK calls). The two
angle arguments of `fl_pie`/`fl_arc` are the constants `0.0`/`360.0`,
recorded as integers. -/
inductive DrawCmd
  | set_color (c : Color)
  | pie (x y w h a0 a1 : Int)
  | arc (x y w h a0 a1 : Int)
  | font (face size : Nat)
  | text (s : String) (x y : Int)
deriving DecidableEq

/-- The layout quantities computed at the top of `StatusPanel::draw` from
the widget position `px`, `py` and width `pw` (C++ `int` division truncates
toward zero, hence `Int.tdiv`). -/
structure Layout where
  d : Int
  gap : Int
  x0 : Int
  x1 : Int
  x2 : Int
  circleY : Int
  captionY : Int
deriving DecidableEq

def layout (px py pw : Int) : Layout :=
  let margin : Int := 10
  let available := pw - margin * 2
  let d0 := Int.tdiv available 3 - 10
  let d1 := if d0 > 100 then 100 else d0
  let d := if d1 < 60 then 60 else d1
  let gap := Int.tdiv (available - 3 * d) 2
  let top := py + 10
  let left := px + margin
  { d := d, gap := gap,
    x0 := left, x1 := left + d + gap, x2 := left + 2 * (d + gap),
    circleY := top, captionY := top + d + 8 }

/-- `StatusPanel::draw_circle` — filled pie plus darker outline. -/
def draw_circle (cx cy d : Int) (fill : Color) : List DrawCmd :=
  [DrawCmd.set_color fill,
   DrawCmd.pie cx cy d d 0 360,
   DrawCmd.set_color FL_DARK3,
   DrawCmd.arc cx cy d d 0 360]

/-- `StatusPanel::draw_caption_centered` — `measure` stands for
`fl_measure`, which returns the rendered text extent `(tw, th)`. -/
def draw_caption_centered (measure : String → Int × Int) (x y w : Int) (s : String) :
    List DrawCmd :=
  let tw := (measure s).1
  let th := (measure s).2
  let tx := x + Int.tdiv (w - tw) 2
  let ty := y + th
  [DrawCmd.font 0 12, DrawCmd.set_color FL_BLACK, DrawCmd.text s tx ty]

/-- `StatusPanel::draw` with its access trace: computes the layout, loads
the two probe cells to pick the circle colors (the third circle is the
reserved gray one), draws three circles and two captions. -/
def StatusPanel_draw_tr (measure : String → Int × Int) (px py pw _ph : Int) (s : AppState) :
    List DrawCmd × List Access :=
  let L := layout px py pw
  let c0 := color_for s.network
  let c1 := color_for s.serial
  let c2 := fl_rgb_color 128 128 128
  (draw_circle L.x0 L.circleY L.d c0 ++
   draw_circle L.x1 L.circleY L.d c1 ++
   draw_circle L.x2 L.circleY L.d c2 ++
   draw_caption_centered measure L.x0 L.captionY L.d "network" ++
   draw_caption_centered measure L.x1 L.captionY L.d "serial",
   [Access.load_network s.network, Access.load_serial s.serial])

/-- Environment a worker loop runs against: `flag n` is the value returned
by the n-th load of the `running` atomic performed by this worker, and
`rc k` the `std::system` return value of the k-th invocation of the probe
script. -/
structure WorkerEnv where
  flag : Nat → Bool
  rc : Nat → Int

/-- Events of a worker loop execution: loads of `running` (with the time
index of the load and the value read), script invocations (time of the
guarding load and invocation counter), stores to the probe cells, and the
50 ms sleeps. -/
inductive Ev
  | load_running (t : Nat) (v : Bool)
  | invoke (t k : Nat)
  | store_network (v : ProbeState)
  | store_serial (v : ProbeState)
  | sleep50 (t : Nat)
deriving DecidableEq

/-- Whether an event is one of the 50 ms sleeps. -/
def Ev.is_sleep : Ev → Bool
  | .sleep50 _ => true
  | _ => false

/-- The inner sleep loop
`for (int i = 0; i < 40 && s->running.load(); ++i) sleep_for(50ms)`:
`rem` is the number of iterations the counter still allows (`40 - i`, so 40
on entry), `t` the next flag-read time. Returns the events of the loop and
the next flag-read time. Each 50 ms sleep is guarded by a fresh load of
`running`; when the load reads false the loop exits before sleeping
again. -/
def sleep_steps (env : WorkerEnv) (t : Nat) : Nat → List Ev × Nat
  | 0 => ([], t)
  | rem + 1 =>
    if env.flag t then
      let r := sleep_steps env (t + 1) rem
      (Ev.load_running t true :: Ev.sleep50 t :: r.1, r.2)
    else ([Ev.load_running t false], t + 1)

/-- The outer worker loop `while (s->running.load()) { cell.store(...); sleep }`,
parameterised by the event and state update for the probe cell the worker
stores to (`Ev.store_network`/`set_network` for the network worker,
`Ev.store_serial`/`set_serial` for the serial worker). `fuel` bounds the
number of outer iterations modelled; `t` is the next flag-read time and `k`
the next invocation index. Returns `none` when the fuel runs out before the
loop exits. -/
def set_network (v : ProbeState) (s : AppState) : AppState := { s with network := v }

def set_serial (v : ProbeState) (s : AppState) : AppState := { s with serial := v }

def probe_loop (stEv : ProbeState → Ev) (setCell : ProbeState → AppState → AppState)
    (env : WorkerEnv) : Nat → Nat → Nat → AppState → Option (List Ev × AppState)
  | 0, _, _, _ => none
  | fuel + 1, t, k, s =>
    if env.flag t then
      let v := run_command_success (env.rc k)
      let s1 := setCell v s
      let r := sleep_steps env (t + 1) 40
      match probe_loop stEv setCell env fuel r.2 (k + 1) s1 with
      | none => none
      | some (evs, s2) =>
        some (Ev.load_running t true :: Ev.invoke t k :: stEv v :: (r.1 ++ evs), s2)
    else some ([Ev.load_running t false], s)

/-- `network_worker` — `resolved` is the value `resolve_path("test_network.sh")`
returned. When it is empty the worker stores Unknown and returns; note the
source stores into `s->serial` here (`main.cpp:183`), not into the network
cell. Otherwise it enters the probe loop storing into the network cell. -/
def network_worker (env : WorkerEnv) (resolved : String) (fuel : Nat) (s : AppState) :
    Option (List Ev × AppState) :=
  if resolved = "" then
    some ([Ev.store_serial ProbeState.Unknown], set_serial ProbeState.Unknown s)
  else
    probe_loop Ev.store_network set_network env fuel 0 0 s

/-- `serial_worker` — same shape; the missing-script branch and the loop
both store into the serial cell. -/
def serial_worker (env : WorkerEnv) (resolved : String) (fuel : Nat) (s : AppState) :
    Option (List Ev × AppState) :=
  if resolved = "" then
    some ([Ev.store_serial ProbeState.Unknown], set_serial ProbeState.Unknown s)
  else
    probe_loop Ev.store_serial set_serial env fuel 0 0 s

/-- The running flag is false from time `N` on. -/
def stops_after (env : WorkerEnv) (N : Nat) : Prop :=
  ∀ n, N ≤ n → env.flag n = false

/-- A concrete environment: flag already false, all commands succeed. -/
def env0 : WorkerEnv := { flag := fun _ => false, rc := fun _ => 0 }

/-- A concrete environment: flag true only at time 0, commands fail to
launch (`std::system` returns -1). -/
def env1 : WorkerEnv := { flag := fun n => n = 0, rc := fun _ => -1 }

/-- A concrete state with the serial probe already Ok. -/
def st1 : AppState :=
  { network := ProbeState.Unknown, serial := ProbeState.Ok, running := true }

/-! ## Helper lemmas -/

theorem take127_eq_self (s : String) (h : s.length ≤ 127) : s.take 127 = s := by
  rw [String.take_eq]
  cases s with
  | mk data => exact congrArg String.mk (List.take_of_length_le h)

/-! ## Claims -/

/-- Claim C3: for every probe iteration with a resolved executable, Ok is
recorded exactly when the subprocess exit status is zero; any nonzero status
and a launch failure (`std::system` returning -1) are both recorded as Fail,
and the loop stores that value and continues. The last conjunct shows one
loop iteration: when the running flag reads true, the trace of the iteration
begins with the flag load, the invocation, and the store of
`run_command_success` of that invocation's status. -/
theorem C3_ok_iff_exit_status_zero (env : WorkerEnv) (fuel t k : Nat) (s : AppState) (rc : Int) :
    (run_command_success rc = ProbeState.Ok ↔ rc = 0) ∧
    (run_command_success rc = ProbeState.Fail ↔ rc ≠ 0) ∧
    run_command_success (-1) = ProbeState.Fail ∧
    (env.flag t = true →
      ∀ evs s2, probe_loop Ev.store_network set_network env (fuel + 1) t k s = some (evs, s2) →
        evs.take 3 = [Ev.load_running t true, Ev.invoke t k,
          Ev.store_network (run_command_success (env.rc k))]) := by
  refine ⟨?_, ?_, ?_, ?_⟩
  · by_cases h : rc = 0 <;> simp [run_command_success, h]
  · by_cases h : rc = 0 <;> simp [run_command_success, h]
  · simp [run_command_success]
  · intro hf evs s2 h
    rw [probe_loop, if_pos hf] at h
    rcases hrec : probe_loop Ev.store_network set_network env fuel
        (sleep_steps env (t + 1) 40).2 (k + 1)
        (set_network (run_command_success (env.rc k)) s) with _ | ⟨evs1, s1⟩
    · simp only [hrec] at h
      exact absurd h (by simp)
    · simp only [hrec, Option.some.injEq, Prod.mk.injEq] at h
      rw [← h.1]
      rfl

/-- Witness for C3 at a concrete environment: the flag is true only at time
0 and `std::system` fails to launch (-1); the single iteration records Fail
in the network cell. -/
theorem C3_ok_iff_exit_status_zero_witness :
    run_command_success (-1) = ProbeState.Fail ∧
    [Ev.load_running 0 true, Ev.invoke 0 0, Ev.store_network ProbeState.Fail,
      Ev.load_running 1 false, Ev.load_running 2 false].take 3 =
      [Ev.load_running 0 true, Ev.invoke 0 0,
        Ev.store_network (run_command_success (env1.rc 0))] :=
  ⟨(C3_ok_iff_exit_status_zero env1 1 0 0 initState (-1)).2.2.1,
   (C3_ok_iff_exit_status_zero env1 1 0 0 initState (-1)).2.2.2 rfl _ _ rfl⟩

set_option maxRecDepth 8000

/-- Claim C4: the status line built from a snapshot with cells `w`, `x` is
exactly `"network=<W>, serial=<X>"` with `"OK"`/`"down"`/`"unknown"` for
Ok/Fail/Unknown, and in particular the two quoted instances hold. -/
theorem C4_status_line_format (s : AppState) :
    to_str ProbeState.Ok = "OK" ∧
    to_str ProbeState.Fail = "down" ∧
    to_str ProbeState.Unknown = "unknown" ∧
    make_status_line s = "network=" ++ to_str s.network ++ ", serial=" ++ to_str s.serial ∧
    make_status_line
      { network := ProbeState.Ok, serial := ProbeState.Fail, running := true } =
      "network=OK, serial=down" ∧
    make_status_line
      { network := ProbeState.Unknown, serial := ProbeState.Unknown, running := true } =
      "network=unknown, serial=unknown" := by
  refine ⟨rfl, rfl, rfl, ?_, by decide, by decide⟩
  obtain ⟨n, sr, r⟩ := s
  simp only [make_status_line, make_status_line_tr]
  apply take127_eq_self
  cases n <;> cases sr <;> decide

/-- Claim C5: `color_for` maps Ok to green, Fail to red, Unknown to gray;
it is total on the tri-state (always one of those three colors), and the
third (reserved) circle drawn by the panel is gray regardless of the state
snapshot: the ninth drawing command is its fill color. -/
theorem C5_color_for_mapping (measure : String → Int × Int) (px py pw ph : Int) (s : AppState) :
    color_for ProbeState.Ok = FL_GREEN ∧
    color_for ProbeState.Fail = FL_RED ∧
    color_for ProbeState.Unknown = fl_rgb_color 128 128 128 ∧
    (∀ v : ProbeState, color_for v = FL_GREEN ∨ color_for v = FL_RED ∨
      color_for v = fl_rgb_color 128 128 128) ∧
    ((StatusPanel_draw_tr measure px py pw ph s).1)[8]? =
      some (DrawCmd.set_color (fl_rgb_color 128 128 128)) := by
  refine ⟨rfl, rfl, rfl, ?_, ?_⟩
  · intro v
    cases v
    · exact Or.inr (Or.inr rfl)
    · exact Or.inr (Or.inl rfl)
    · exact Or.inl rfl
  · rfl

/-- Claim C1 (refuted by the code): the network worker's missing-script
branch stores into the *serial* cell (`main.cpp:183`). With the network
script unresolved, the network worker's trace contains a store to the
serial cell, and the serial cell changes value. -/
theorem C1_network_worker_writes_serial_cell :
    ∃ evs s2, network_worker env0 "" 1 st1 = some (evs, s2) ∧
      Ev.store_serial ProbeState.Unknown ∈ evs ∧
      s2.serial ≠ st1.serial := by
  refine ⟨_, _, rfl, ?_, ?_⟩ <;> decide

/-- Claim C2 (refuted by the code): with the network script unresolvable,
the network worker does not write its own cell at all (it merely stays at
whatever it was) and instead overwrites the *serial* probe's cell with
Unknown — the other probe's cell is affected. -/
theorem C2_missing_network_script_clobbers_serial :
    ∃ evs s2, network_worker env0 "" 1 st1 = some (evs, s2) ∧
      st1.serial = ProbeState.Ok ∧
      s2.serial = ProbeState.Unknown ∧
      s2.network = st1.network ∧
      (∀ v, Ev.store_network v ∉ evs) := by
  refine ⟨_, _, rfl, rfl, rfl, rfl, ?_⟩
  intro v
  cases v <;> decide

theorem path_loop_eq_find (exec_ok : String → Bool) (script : String) (l : List String) :
    path_loop exec_ok script l =
      ((l.filter (fun d => d ≠ "")).find? (fun d => exec_ok (d ++ "/" ++ script))).map
        (fun d => d ++ "/" ++ script) := by
  induction l with
  | nil => rfl
  | cons dir rest ih =>
    by_cases hd : dir = ""
    · simp [path_loop, hd, ih]
    · by_cases he : exec_ok (dir ++ "/" ++ script)
      · simp [path_loop, hd, he]
      · simp [path_loop, hd, he, ih]

theorem fallback_loop_eq_find (exec_ok : String → Bool) (script : String) (l : List String) :
    fallback_loop exec_ok script l =
      (l.find? (fun d => exec_ok (d ++ "/" ++ script))).map (fun d => d ++ "/" ++ script) := by
  induction l with
  | nil => rfl
  | cons dir rest ih =>
    by_cases he : exec_ok (dir ++ "/" ++ script)
    · simp [fallback_loop, he]
    · simp [fallback_loop, he, ih]

theorem dir_slash_script_ne_empty (d script : String) : d ++ "/" ++ script ≠ "" := by
  intro h
  have hl := congrArg String.length h
  rw [String.length_append, String.length_append] at hl
  have h1 : ("/" : String).length = 1 := rfl
  have h0 : ("" : String).length = 0 := rfl
  omega

theorem resolve_dirs_eq_find (exec_ok : String → Bool) (script : String) (dirs : List String) :
    resolve_dirs exec_ok script dirs =
      (match (dirs.filter (fun d => d ≠ "") ++ fallbacks).find?
          (fun d => exec_ok (d ++ "/" ++ script)) with
       | some d => d ++ "/" ++ script
       | none => "") := by
  rw [resolve_dirs, path_loop_eq_find, fallback_loop_eq_find, List.find?_append]
  rcases h1 : (dirs.filter (fun d => d ≠ "")).find? (fun d => exec_ok (d ++ "/" ++ script)) with
    _ | d1
  · rcases h2 : fallbacks.find? (fun d => exec_ok (d ++ "/" ++ script)) with _ | d2 <;>
      simp [h2]
  · simp

/-- Claim C6: path resolution probes the non-empty PATH segments in listed
order, then the fixed fallback directories in listed order; the first
directory whose candidate is executable determines the result, and the
result is the empty string exactly when no searched directory has an
executable candidate. -/
theorem C6_resolution_probes_in_order (exec_ok : String → Bool) (p script : String) :
    resolve_path exec_ok (some p) script =
      (match (candidate_dirs p).find? (fun d => exec_ok (d ++ "/" ++ script)) with
       | some d => d ++ "/" ++ script
       | none => "") ∧
    (resolve_path exec_ok (some p) script = "" ↔
      ∀ d ∈ candidate_dirs p, exec_ok (d ++ "/" ++ script) = false) := by
  have hmain : resolve_path exec_ok (some p) script =
      (match (candidate_dirs p).find? (fun d => exec_ok (d ++ "/" ++ script)) with
       | some d => d ++ "/" ++ script
       | none => "") := by
    rw [resolve_path]
    rw [resolve_dirs_eq_find]
    rfl
  refine ⟨hmain, ?_⟩
  rw [hmain]
  rcases hf : (candidate_dirs p).find? (fun d => exec_ok (d ++ "/" ++ script)) with _ | d
  · rw [List.find?_eq_none] at hf
    simp only [true_iff]
    intro d hd
    have := hf d hd
    simpa using this
  · simp only []
    constructor
    · intro h
      exact absurd h (dir_slash_script_ne_empty d script)
    · intro h
      have hmem := List.find?_some hf
      have hdmem := List.mem_of_find?_eq_some hf
      rw [h d hdmem] at hmem
      exact absurd hmem (by simp)

/-- Claim C10: empty segments of the PATH string (leading, trailing or
doubled colons) contribute no candidate: a leading empty segment is skipped
outright, scanning a segment list equals scanning its non-empty sublist,
and the whole resolution result depends only on the non-empty segments
(plus the fallbacks). -/
theorem C10_empty_segments_contribute_nothing (exec_ok : String → Bool) (script p : String)
    (l : List String) :
    path_loop exec_ok script ("" :: l) = path_loop exec_ok script l ∧
    path_loop exec_ok script l = path_loop exec_ok script (l.filter (fun d => d ≠ "")) ∧
    resolve_path exec_ok (some p) script =
      resolve_dirs exec_ok script ((getline_split p).filter (fun d => d ≠ "")) := by
  have hfilter : ∀ m : List String,
      path_loop exec_ok script m = path_loop exec_ok script (m.filter (fun d => d ≠ "")) := by
    intro m
    rw [path_loop_eq_find, path_loop_eq_find, List.filter_filter]
    have : (fun d => decide (d ≠ "") && decide (d ≠ "")) = (fun d : String => decide (d ≠ "")) := by
      funext d
      rw [Bool.and_self]
    rw [this]
  refine ⟨?_, hfilter l, ?_⟩
  · rw [path_loop]
    simp
  · rw [resolve_path, resolve_dirs, resolve_dirs, ← hfilter]

/-- Claim C8: the render path (status line + panel draw) only loads the
probe cells and never stores to any `AppState` field: every access in its
trace is a load, replaying the trace leaves the state unchanged, the status
line always fits the 128-byte buffer, and the panel always emits its full
fixed sequence of 18 drawing commands (in particular on the just-initialized
all-Unknown state). -/
theorem C8_render_path_reads_only (measure : String → Int × Int) (px py pw ph : Int)
    (s : AppState) :
    (((make_status_line_tr s).2 ++ (StatusPanel_draw_tr measure px py pw ph s).2).all
      (fun a => !a.is_store)) = true ∧
    ((make_status_line_tr s).2 ++ (StatusPanel_draw_tr measure px py pw ph s).2).foldl
      apply_access s = s ∧
    (make_status_line s).length < 128 ∧
    (StatusPanel_draw_tr measure px py pw ph s).1.length = 18 := by
  refine ⟨rfl, rfl, ?_, rfl⟩
  obtain ⟨n, sr, r⟩ := s
  simp only [make_status_line, make_status_line_tr]
  cases n <;> cases sr <;> decide

/-- Claim C9, counterexample: at widget position 0 and panel width 40 the
clamped diameter is 60, yet the middle circle starts at x = -10, left of
the panel's left edge — the three circles are not positioned inside the
panel width as claimed. -/
theorem C9_counterexample_narrow_panel :
    (layout 0 0 40).d = 60 ∧
    (layout 0 0 40).x1 < 0 ∧
    ¬ (0 ≤ (layout 0 0 40).x1 ∧
       (layout 0 0 40).x1 + (layout 0 0 40).d ≤ 0 + 40) := by
  decide

theorem tdiv3_bounds (a : Int) (ha : 0 ≤ a) :
    3 * Int.tdiv a 3 ≤ a ∧ a < 3 * Int.tdiv a 3 + 3 := by
  rw [Int.tdiv_eq_ediv ha (by norm_num)]
  have h1 := Int.ediv_add_emod a 3
  have h2 := Int.emod_nonneg a (by norm_num : (3 : Int) ≠ 0)
  have h3 := Int.emod_lt_of_pos a (by norm_num : (0 : Int) < 3)
  omega

theorem tdiv2_bounds (a : Int) (ha : 0 ≤ a) :
    0 ≤ Int.tdiv a 2 ∧ 2 * Int.tdiv a 2 ≤ a := by
  rw [Int.tdiv_eq_ediv ha (by norm_num)]
  have h1 := Int.ediv_add_emod a 2
  have h2 := Int.emod_nonneg a (by norm_num : (2 : Int) ≠ 0)
  have h3 := Int.emod_lt_of_pos a (by norm_num : (0 : Int) < 2)
  have h4 := Int.ediv_nonneg ha (by norm_num : (0 : Int) ≤ 2)
  omega

/-- Claim C9, amended: for every panel position and width the computed
diameter is clamped to 60..100 and the three circles are spaced with equal
gaps; when the panel is wide enough for three minimum-size circles plus the
margins (width at least 200) the gap is non-negative and all three circles
lie inside the panel width. (On narrower panels the 60-pixel minimum makes
the circles overflow, as the counterexample shows.) -/
theorem C9_layout_clamped_and_evenly_spaced (px py pw : Int) :
    60 ≤ (layout px py pw).d ∧ (layout px py pw).d ≤ 100 ∧
    (layout px py pw).x1 - ((layout px py pw).x0 + (layout px py pw).d) =
      (layout px py pw).gap ∧
    (layout px py pw).x2 - ((layout px py pw).x1 + (layout px py pw).d) =
      (layout px py pw).gap ∧
    (200 ≤ pw →
      0 ≤ (layout px py pw).gap ∧
      px ≤ (layout px py pw).x0 ∧
      (layout px py pw).x0 + (layout px py pw).d ≤ (layout px py pw).x1 ∧
      (layout px py pw).x1 + (layout px py pw).d ≤ (layout px py pw).x2 ∧
      (layout px py pw).x2 + (layout px py pw).d ≤ px + pw) := by
  simp only [layout]
  refine ⟨?_, ?_, ?_, ?_, ?_⟩
  · split_ifs <;> omega
  · split_ifs <;> omega
  · ring
  · ring
  · intro hpw
    have ha0 : (0 : Int) ≤ pw - 10 * 2 := by omega
    obtain ⟨hq1, hq2⟩ := tdiv3_bounds (pw - 10 * 2) ha0
    split_ifs with h1 h2 h2
    · omega
    · obtain ⟨hg0, hgle⟩ := tdiv2_bounds (pw - 10 * 2 - 3 * 100) (by omega)
      omega
    · obtain ⟨hg0, hgle⟩ := tdiv2_bounds (pw - 10 * 2 - 3 * 60) (by omega)
      omega
    · obtain ⟨hg0, hgle⟩ :=
        tdiv2_bounds (pw - 10 * 2 - 3 * (Int.tdiv (pw - 10 * 2) 3 - 10)) (by omega)
      omega

/-- Witness for the amended C9 at the program's actual panel geometry
(`StatusPanel(10, 10, 300, 160)`): diameter 83, equal gaps, and all three
circles inside the panel width. -/
theorem C9_layout_clamped_and_evenly_spaced_witness :
    (60 ≤ (layout 10 10 300).d ∧ (layout 10 10 300).d ≤ 100 ∧
     (layout 10 10 300).x1 - ((layout 10 10 300).x0 + (layout 10 10 300).d) =
       (layout 10 10 300).gap ∧
     (layout 10 10 300).x2 - ((layout 10 10 300).x1 + (layout 10 10 300).d) =
       (layout 10 10 300).gap) ∧
    (0 ≤ (layout 10 10 300).gap ∧
     10 ≤ (layout 10 10 300).x0 ∧
     (layout 10 10 300).x0 + (layout 10 10 300).d ≤ (layout 10 10 300).x1 ∧
     (layout 10 10 300).x1 + (layout 10 10 300).d ≤ (layout 10 10 300).x2 ∧
     (layout 10 10 300).x2 + (layout 10 10 300).d ≤ 10 + 300) :=
  ⟨⟨(C9_layout_clamped_and_evenly_spaced 10 10 300).1,
    (C9_layout_clamped_and_evenly_spaced 10 10 300).2.1,
    (C9_layout_clamped_and_evenly_spaced 10 10 300).2.2.1,
    (C9_layout_clamped_and_evenly_spaced 10 10 300).2.2.2.1⟩,
   (C9_layout_clamped_and_evenly_spaced 10 10 300).2.2.2.2 (by norm_num)⟩

theorem sleep_steps_time_le (env : WorkerEnv) : ∀ rem t, t ≤ (sleep_steps env t rem).2 := by
  intro rem
  induction rem with
  | zero => intro t; exact Nat.le_refl t
  | succ rem ih =>
    intro t
    rw [sleep_steps]
    by_cases hf : env.flag t
    · rw [if_pos hf]
      exact Nat.le_trans (Nat.le_succ t) (ih (t + 1))
    · rw [if_neg hf]
      exact Nat.le_succ t

theorem sleep_steps_no_invoke (env : WorkerEnv) :
    ∀ rem t u j, Ev.invoke u j ∉ (sleep_steps env t rem).1 := by
  intro rem
  induction rem with
  | zero => intro t u j h; simp [sleep_steps] at h
  | succ rem ih =>
    intro t u j h
    rw [sleep_steps] at h
    by_cases hf : env.flag t
    · rw [if_pos hf] at h
      simp only [List.mem_cons] at h
      rcases h with h | h | h
      · exact Ev.noConfusion h
      · exact Ev.noConfusion h
      · exact ih (t + 1) u j h
    · rw [if_neg hf] at h
      simp only [List.mem_cons, List.not_mem_nil, or_false] at h
      exact Ev.noConfusion h

theorem sleep_steps_sleep_gated (env : WorkerEnv) :
    ∀ rem t u, Ev.sleep50 u ∈ (sleep_steps env t rem).1 → env.flag u = true := by
  intro rem
  induction rem with
  | zero => intro t u h; simp [sleep_steps] at h
  | succ rem ih =>
    intro t u h
    rw [sleep_steps] at h
    by_cases hf : env.flag t
    · rw [if_pos hf] at h
      simp only [List.mem_cons] at h
      rcases h with h | h | h
      · exact Ev.noConfusion h
      · cases h
        exact hf
      · exact ih (t + 1) u h
    · rw [if_neg hf] at h
      simp only [List.mem_cons, List.not_mem_nil, or_false] at h
      exact Ev.noConfusion h

theorem sleep_steps_count_le (env : WorkerEnv) :
    ∀ rem t, ((sleep_steps env t rem).1.countP Ev.is_sleep) ≤ rem := by
  intro rem
  induction rem with
  | zero => intro t; simp [sleep_steps]
  | succ rem ih =>
    intro t
    rw [sleep_steps]
    by_cases hf : env.flag t
    · rw [if_pos hf]
      have h := ih (t + 1)
      simp [List.countP_cons, Ev.is_sleep]
      omega
    · rw [if_neg hf]
      simp [List.countP_cons, Ev.is_sleep]

theorem probe_loop_stops (stEv : ProbeState → Ev) (setCell : ProbeState → AppState → AppState)
    (env : WorkerEnv) (N : Nat) (hstop : stops_after env N)
    (hst_inv : ∀ v u j, stEv v ≠ Ev.invoke u j)
    (hst_slp : ∀ v u, stEv v ≠ Ev.sleep50 u) :
    ∀ fuel t k s, 0 < fuel → N < t + fuel →
      ∃ evs s2, probe_loop stEv setCell env fuel t k s = some (evs, s2) ∧
        (∀ u j, Ev.invoke u j ∈ evs → env.flag u = true) ∧
        (∀ u, Ev.sleep50 u ∈ evs → env.flag u = true) := by
  intro fuel
  induction fuel with
  | zero => intro t k s h0 hN; exact absurd h0 (Nat.lt_irrefl 0)
  | succ fuel ih =>
    intro t k s h0 hN
    by_cases hf : env.flag t = true
    · have htN : t < N := by
        by_contra hge
        have hfalse := hstop t (Nat.le_of_not_lt hge)
        rw [hfalse] at hf
        exact Bool.noConfusion hf
      have ht' := sleep_steps_time_le env 40 (t + 1)
      obtain ⟨evs1, s2, hrec, hinv1, hslp1⟩ :=
        ih (sleep_steps env (t + 1) 40).2 (k + 1)
          (setCell (run_command_success (env.rc k)) s) (by omega) (by omega)
      refine ⟨Ev.load_running t true :: Ev.invoke t k ::
        stEv (run_command_success (env.rc k)) ::
        ((sleep_steps env (t + 1) 40).1 ++ evs1), s2, ?_, ?_, ?_⟩
      · rw [probe_loop, if_pos hf]
        simp only [hrec]
      · intro u j h
        simp only [List.mem_cons, List.mem_append] at h
        rcases h with h | h | h | h | h
        · exact Ev.noConfusion h
        · injection h with h1 h2
          rw [h1]
          exact hf
        · exact absurd h.symm (hst_inv _ u j)
        · exact absurd h (sleep_steps_no_invoke env 40 (t + 1) u j)
        · exact hinv1 u j h
      · intro u h
        simp only [List.mem_cons, List.mem_append] at h
        rcases h with h | h | h | h | h
        · exact Ev.noConfusion h
        · exact Ev.noConfusion h
        · exact absurd h.symm (hst_slp _ u)
        · exact sleep_steps_sleep_gated env 40 (t + 1) u h
        · exact hslp1 u h
    · refine ⟨[Ev.load_running t false], s, ?_, ?_, ?_⟩
      · rw [probe_loop, if_neg hf]
      · intro u j h
        simp only [List.mem_cons, List.not_mem_nil, or_false] at h
        exact Ev.noConfusion h
      · intro u h
        simp only [List.mem_cons, List.not_mem_nil, or_false] at h
        exact Ev.noConfusion h

/-- Claim C7: once the running flag is (and stays) false, each worker loop
terminates without starting another probe invocation — every invocation and
every 50 ms sleep in the trace sits behind a load of the flag that read
true, the inter-iteration sleep is at most 40 gated 50 ms increments, and a
false flag read makes the loop exit immediately with no invocation. `N + 1`
outer iterations of fuel suffice for termination when the flag is false
from time `N` on. -/
theorem C7_stop_request_honored (env : WorkerEnv) (N : Nat) (s : AppState)
    (res_net res_ser : String) (hn : res_net ≠ "") (hs : res_ser ≠ "")
    (hstop : stops_after env N) :
    (∃ evs s2, network_worker env res_net (N + 1) s = some (evs, s2) ∧
      (∀ u j, Ev.invoke u j ∈ evs → env.flag u = true) ∧
      (∀ u, Ev.sleep50 u ∈ evs → env.flag u = true)) ∧
    (∃ evs s2, serial_worker env res_ser (N + 1) s = some (evs, s2) ∧
      (∀ u j, Ev.invoke u j ∈ evs → env.flag u = true) ∧
      (∀ u, Ev.sleep50 u ∈ evs → env.flag u = true)) ∧
    (∀ t, ((sleep_steps env t 40).1.countP Ev.is_sleep) ≤ 40) ∧
    (∀ fuel t k s1, env.flag t = false →
      probe_loop Ev.store_network set_network env (fuel + 1) t k s1 =
        some ([Ev.load_running t false], s1)) := by
  refine ⟨?_, ?_, fun t => sleep_steps_count_le env 40 t, ?_⟩
  · rw [network_worker, if_neg hn]
    exact probe_loop_stops Ev.store_network set_network env N hstop
      (fun v u j h => Ev.noConfusion h) (fun v u h => Ev.noConfusion h)
      (N + 1) 0 0 s (Nat.succ_pos N) (by omega)
  · rw [serial_worker, if_neg hs]
    exact probe_loop_stops Ev.store_serial set_serial env N hstop
      (fun v u j h => Ev.noConfusion h) (fun v u h => Ev.noConfusion h)
      (N + 1) 0 0 s (Nat.succ_pos N) (by omega)
  · intro fuel t k s1 hft
    rw [probe_loop, if_neg (by simp [hft])]

/-- Witness for C7 at a concrete environment: flag already false from time
0, so both workers (with resolved scripts) exit after a single flag load
with no invocation. -/
theorem C7_stop_request_honored_witness :
    (∃ evs s2, network_worker env0 "x" 1 initState = some (evs, s2) ∧
      (∀ u j, Ev.invoke u j ∈ evs → env0.flag u = true) ∧
      (∀ u, Ev.sleep50 u ∈ evs → env0.flag u = true)) ∧
    (∃ evs s2, serial_worker env0 "x" 1 initState = some (evs, s2) ∧
      (∀ u j, Ev.invoke u j ∈ evs → env0.flag u = true) ∧
      (∀ u, Ev.sleep50 u ∈ evs → env0.flag u = true)) ∧
    (∀ t, ((sleep_steps env0 t 40).1.countP Ev.is_sleep) ≤ 40) ∧
    (∀ fuel t k s1, env0.flag t = false →
      probe_loop Ev.store_network set_network env0 (fuel + 1) t k s1 =
        some ([Ev.load_running t false], s1)) :=
  C7_stop_request_honored env0 0 initState "x" "x" (by decide) (by decide)
    (fun n _ => rfl)
